import Mathlib

/-!
Shallow embedding of the session/token lifecycle core of the kapkorn
admin front-end:

* the JWT token utilities (`decodeToken`, `getTokenExpiry`, `isTokenExpired`,
  `getTokenInfo`, `shouldRefreshToken`, `validateTokenFormat`,
  `safeTokenRefresh`) from the token-utilities module;
* the NextAuth configuration callbacks (`jwt`, `session`) and the local
  `getTokenExpiry`/`isTokenExpired` helpers from the auth configuration;
* the authentication middleware (route guard) and the route tables;
* the `loginAction` server action.

JavaScript numbers that are only ever whole non-negative millisecond
counts or second counts are modelled as `Nat`; comparisons that can go
negative in JavaScript are performed in `Int`.  JavaScript truthiness of
optional strings / numbers is modelled explicitly (`none`, `some ""` and
`some 0` are falsy).
-/

/-- Decoded JWT payload (`EnhancedJwtPayload`).  Only the claims the
token-lifecycle code inspects are modelled; `exp` is in whole seconds
since the epoch, `none` when the claim is absent. -/
structure EnhancedJwtPayload where
  sub : Option String := none
  username : Option String := none
  role : Option String := none
  exp : Option Nat := none
deriving Repr, DecidableEq

/-- The payload with no claims (`{}` in JavaScript). -/
def emptyPayload : EnhancedJwtPayload := {}

/-- A deserializer for the payload (second) segment of a compact JWT:
base64url-decoding plus JSON parsing, abstracted as a function from the
raw segment to the decoded claims (`none` when the segment cannot be
deserialized).  The concrete byte-level deserializer lives in the external
jwt-decode library, outside this repository. -/
def PayloadParser : Type := String → Option EnhancedJwtPayload

/-- `TOKEN_CONFIG.REFRESH_BUFFER_MS`: refresh the token 5 minutes before
expiry. -/
def REFRESH_BUFFER_MS : Nat := 5 * 60 * 1000

/-- `TOKEN_CONFIG.MIN_VALID_TIME_MS`: minimum remaining validity (2
minutes) required of a refresh token before it is used. -/
def MIN_VALID_TIME_MS : Nat := 2 * 60 * 1000

/-- Split a character list at every dot, JavaScript `split('.')`
semantics: the empty list yields one empty segment, separators at the
ends yield empty segments. -/
def splitCharsOnDot : List Char → List (List Char)
  | [] => [[]]
  | c :: cs =>
    let rest := splitCharsOnDot cs
    if c = '.' then [] :: rest
    else
      match rest with
      | r :: rs => (c :: r) :: rs
      | [] => [[c]]

/-- `token.split('.')`. -/
def splitDots (s : String) : List String :=
  (splitCharsOnDot s.data).map (fun cs => String.mk cs)

/-- Modelled from the spec: the external jwt-decode library's `jwtDecode`
(its source is not part of this repository).  Per the Token Codec
contract, decoding fails when the string is empty or does not consist of
exactly three dot-separated segments, and otherwise deserializes the
payload (second) segment; the segment deserializer is the parameter
`p`. -/
def jwtDecode (p : PayloadParser) (token : String) : Option EnhancedJwtPayload :=
  let parts := splitDots token
  if token = "" then none
  else if parts.length ≠ 3 then none
  else match parts[1]? with
    | some seg => p seg
    | none => none

/-- `decodeToken`: decode a JWT, returning `none` instead of raising on
any decode failure. -/
def decodeToken (p : PayloadParser) (token : String) : Option EnhancedJwtPayload :=
  jwtDecode p token

/-- `getTokenExpiry`: the token's expiry instant in milliseconds, `none`
when the token does not decode or the `exp` claim is absent (a zero
`exp` claim is falsy in JavaScript, hence also `none`). -/
def getTokenExpiry (p : PayloadParser) (token : String) : Option Nat :=
  match decodeToken p token with
  | none => none
  | some payload =>
    match payload.exp with
    | some e => if e = 0 then none else some (e * 1000)
    | none => none

/-- `isTokenExpired`: whether the token is expired or expires within
`bufferMs` of `now`; an unparsable expiry counts as expired. -/
def isTokenExpired (p : PayloadParser) (now : Nat) (token : String) (bufferMs : Nat) : Bool :=
  match getTokenExpiry p token with
  | none => true
  | some expiry => (expiry : Int) - (bufferMs : Int) ≤ (now : Int)

/-- `TokenInfo`: the record returned by `getTokenInfo`. -/
structure TokenInfo where
  payload : EnhancedJwtPayload
  isExpired : Bool
  willExpireSoon : Bool
  timeUntilExpiry : Nat
  timeToExpiryString : String
deriving Repr, DecidableEq

/-- `getTokenInfo`: comprehensive token information at time `now`
(milliseconds since epoch). -/
def getTokenInfo (p : PayloadParser) (now : Nat) (token : String) : TokenInfo :=
  let payload := (decodeToken p token).getD emptyPayload
  let expiry : Option Nat :=
    match payload.exp with
    | some e => if e = 0 then none else some (e * 1000)
    | none => none
  let timeUntilExpiry : Nat :=
    match expiry with
    | some ex => ex - now
    | none => 0
  let isExpired : Bool :=
    match expiry with
    | some ex => ex ≤ now
    | none => true
  let willExpireSoon : Bool := !isExpired && timeUntilExpiry ≤ REFRESH_BUFFER_MS
  let minutes := timeUntilExpiry / (1000 * 60)
  let hours := minutes / 60
  let days := hours / 24
  let timeToExpiryString :=
    if isExpired then "Expired"
    else if days > 0 then
      toString days ++ "d " ++ toString (hours % 24) ++ "h " ++ toString (minutes % 60) ++ "m"
    else if hours > 0 then
      toString hours ++ "h " ++ toString (minutes % 60) ++ "m"
    else
      toString minutes ++ "m"
  { payload := payload
    isExpired := isExpired
    willExpireSoon := willExpireSoon
    timeUntilExpiry := timeUntilExpiry
    timeToExpiryString := timeToExpiryString }

/-- `ValidationResult`: the record returned by `validateTokenFormat`. -/
structure ValidationResult where
  isValid : Bool
  error : Option String := none
deriving Repr, DecidableEq

/-- `validateTokenFormat`: structural validation of a token (presence,
three dot-separated parts, decodable payload, `exp` claim present and
truthy). -/
def validateTokenFormat (p : PayloadParser) (token : String) : ValidationResult :=
  if token = "" then
    { isValid := false, error := some "Token is required and must be a string" }
  else if (splitDots token).length ≠ 3 then
    { isValid := false, error := some "Invalid JWT format: must have 3 parts" }
  else
    match decodeToken p token with
    | none => { isValid := false, error := some "Failed to decode token payload" }
    | some payload =>
      match payload.exp with
      | none => { isValid := false, error := some "Token missing expiration claim (exp)" }
      | some e =>
        if e = 0 then { isValid := false, error := some "Token missing expiration claim (exp)" }
        else { isValid := true }

/-- `shouldRefreshToken`: `true` when the access token is absent (or the
empty, hence falsy, string), expired, or will expire soon. -/
def shouldRefreshToken (p : PayloadParser) (now : Nat) (accessToken : Option String) : Bool :=
  match accessToken with
  | none => true
  | some s =>
    if s = "" then true
    else
      let info := getTokenInfo p now s
      info.isExpired || info.willExpireSoon

/-- JavaScript errors as the refresh machinery sees them: a `TokenError`
(with `message`, `code` and optional `originalError` cause) or any other
thrown value, carried with its message. -/
inductive JsError where
  | tokenError (message : String) (code : String) (originalError : Option JsError)
  | genericError (message : String)
deriving Repr

/-- The value produced by a refresh function, as `safeTokenRefresh`
inspects it dynamically: an object carrying an `access` field (whose
string may be empty, i.e. falsy), or any other value. -/
inductive RefreshValue where
  | withAccess (access : String)
  | plain
deriving Repr, DecidableEq

/-- Observable outcome of `safeTokenRefresh`: the returned value or the
thrown error, the number of calls made to the underlying refresh
function, and the backoff delays (milliseconds, in order) awaited
between attempts. -/
structure RefreshOutcome where
  result : Except JsError RefreshValue
  calls : Nat
  waits : List Nat
deriving Repr

/-- One iteration of the `safeTokenRefresh` try-block: call the refresh
function, then validate a nominally successful result that carries an
`access` token, raising `INVALID_REFRESH_RESULT` when validation
fails. -/
def runAttempt (p : PayloadParser) (refreshFn : Nat → Except JsError RefreshValue)
    (attempt : Nat) : Except JsError RefreshValue :=
  match refreshFn attempt with
  | .error e => .error e
  | .ok v =>
    match v with
    | .withAccess access =>
      if access ≠ "" ∧ (validateTokenFormat p access).isValid = false then
        .error (.tokenError "Invalid access token from refresh" "INVALID_REFRESH_RESULT" none)
      else .ok v
    | .plain => .ok v

/-- Errors on which `safeTokenRefresh` does not retry: a `TokenError`
whose code is `INVALID_CREDENTIALS` or `INVALID_REFRESH_RESULT`. -/
def noRetryError : JsError → Bool
  | .tokenError _ code _ => code == "INVALID_CREDENTIALS" || code == "INVALID_REFRESH_RESULT"
  | .genericError _ => false

/-- The error thrown once all attempts have failed: the last error itself
when it is a `TokenError`, else a terminal `REFRESH_FAILED` `TokenError`
carrying the last error as its cause. -/
def finalError : Option JsError → JsError
  | some (.tokenError m c o) => .tokenError m c o
  | other => .tokenError "Token refresh failed after retries" "REFRESH_FAILED" other

/-- The retry loop of `safeTokenRefresh`.  `attempt` is the zero-based
index of the next attempt and `remaining` the number of attempts still
allowed (`maxRetries + 1 - attempt`). -/
def refreshGo (p : PayloadParser) (refreshFn : Nat → Except JsError RefreshValue)
    (maxRetries : Nat) :
    (attempt : Nat) → (remaining : Nat) → (waits : List Nat) → (lastError : Option JsError) →
    RefreshOutcome
  | attempt, 0, waits, lastError =>
    { result := .error (finalError lastError), calls := attempt, waits := waits }
  | attempt, r + 1, waits, _ =>
    match runAttempt p refreshFn attempt with
    | .ok v => { result := .ok v, calls := attempt + 1, waits := waits }
    | .error e =>
      if noRetryError e then
        { result := .error (finalError (some e)), calls := attempt + 1, waits := waits }
      else if attempt < maxRetries then
        refreshGo p refreshFn maxRetries (attempt + 1) r
          (waits ++ [1000 * 2 ^ attempt]) (some e)
      else
        { result := .error (finalError (some e)), calls := attempt + 1, waits := waits }

/-- `safeTokenRefresh`: call `refreshFn` up to `maxRetries + 1` times
(the source's default for `maxRetries` is 2), with exponential backoff
`1000 * 2 ^ attempt` milliseconds between attempts, not retrying
credential-class `TokenError`s, and validating the access token of a
nominally successful result. -/
def safeTokenRefresh (p : PayloadParser) (refreshFn : Nat → Except JsError RefreshValue)
    (maxRetries : Nat) : RefreshOutcome :=
  refreshGo p refreshFn maxRetries 0 (maxRetries + 1) [] none

/-- JavaScript truthiness of an optional string: `undefined`/`null` and
the empty string are falsy. -/
def jsTruthyStr : Option String → Bool
  | none => false
  | some s => s != ""

/-- JavaScript `a || b` on an optional string with a string default. -/
def jsOrStr (a : Option String) (b : String) : String :=
  match a with
  | some s => if s = "" then b else s
  | none => b

/-- JavaScript `a || b` on two optional strings (`a || b` evaluates to
`b` unchanged when `a` is falsy). -/
def jsOrOpt (a b : Option String) : Option String :=
  if jsTruthyStr a then a else b

/-- JavaScript `a || b` on an optional number with a number default
(`some 0` is falsy). -/
def jsOrNat (a : Option Nat) (b : Nat) : Nat :=
  match a with
  | some n => if n = 0 then b else n
  | none => b

/-- The NextAuth JWT record as extended by the auth configuration:
identity fields, the token pair, its absolute expiry, and the error
flag. -/
structure JWTToken where
  id : Option String := none
  username : Option String := none
  email : Option String := none
  name : Option String := none
  firstName : Option String := none
  lastName : Option String := none
  role : Option String := none
  permissions : Option (List String) := none
  accessToken : Option String := none
  refreshToken : Option String := none
  accessTokenExpires : Option Nat := none
  error : Option String := none
deriving Repr, DecidableEq

/-- The `User` object produced by the credentials provider's `authorize`
and consumed by the initial-sign-in branch of the `jwt` callback. -/
structure AuthUser where
  id : String
  username : String
  email : String
  name : String
  firstName : String
  lastName : String
  role : String
  permissions : List String
  accessToken : Option String := none
  refreshToken : Option String := none
deriving Repr, DecidableEq

/-- The initial-sign-in branch of the `jwt` callback (`if (user) { ... }`):
install the user's identity fields and token pair on the JWT record, and
set `accessTokenExpires` from the access token's embedded expiry claim
when available, else to `Date.now()` plus one hour. -/
def installUser (p : PayloadParser) (now : Nat) (token : JWTToken) (u : AuthUser) : JWTToken :=
  let tokenExpiry : Option Nat :=
    match u.accessToken with
    | some s => if s = "" then none else getTokenExpiry p s
    | none => none
  { token with
    id := some u.id
    username := some u.username
    email := some u.email
    name := some u.name
    firstName := some u.firstName
    lastName := some u.lastName
    role := some u.role
    permissions := some u.permissions
    accessToken := u.accessToken
    refreshToken := u.refreshToken
    accessTokenExpires := some (jsOrNat tokenExpiry (now + 60 * 60 * 1000)) }

/-- The refresh-warranted test of the `jwt` callback:
`!token.accessToken || isTokenExpired(token.accessToken, REFRESH_BUFFER_MS)`. -/
def shouldRefreshJwt (p : PayloadParser) (now : Nat) (accessToken : Option String) : Bool :=
  match accessToken with
  | none => true
  | some s => if s = "" then true else isTokenExpired p now s REFRESH_BUFFER_MS

/-- The `jwt` callback of the auth configuration.  The Refresh Executor
(`refreshAccessToken`) is the parameter `refreshFn`: `none` models a
null/undefined result and a record with a truthy `error` field models a
failed refresh (the source ships a mock executor that always succeeds;
the spec treats it as a test double).  `user` is present exactly on
initial sign-in, `triggerUpdate`/`sessionName` model the
`trigger === 'update'` branch. -/
def jwtCallback (p : PayloadParser) (now : Nat) (refreshFn : JWTToken → Option JWTToken)
    (token : JWTToken) (user : Option AuthUser) (triggerUpdate : Bool)
    (sessionName : Option String) : JWTToken :=
  let token :=
    match user with
    | some u => installUser p now token u
    | none => token
  let token :=
    if triggerUpdate then { token with name := jsOrOpt sessionName token.name }
    else token
  if !shouldRefreshJwt p now token.accessToken then token
  else
    match refreshFn token with
    | none => { token with error := some "RefreshAccessTokenError" }
    | some refreshed =>
      if jsTruthyStr refreshed.error then { token with error := some "RefreshAccessTokenError" }
      else refreshed

/-- The user part of the session object assembled by the `session`
callback. -/
structure SessionUser where
  id : Option String := none
  username : Option String := none
  email : Option String := none
  name : Option String := none
  firstName : Option String := none
  lastName : Option String := none
  role : Option String := none
  permissions : Option (List String) := none
deriving Repr, DecidableEq

/-- The session object handed to the consuming layer (and to the
middleware as `request.auth`). -/
structure SessionObj where
  user : Option SessionUser := none
  accessToken : Option String := none
  refreshToken : Option String := none
deriving Repr, DecidableEq

/-- The `session` callback of the auth configuration: a null token or a
token with a (truthy) error flag invalidates the session (`null` is
returned); otherwise the token's identity fields and token pair are
copied onto the session. -/
def sessionCallback : Option JWTToken → Option SessionObj
  | none => none
  | some t =>
    if jsTruthyStr t.error then none
    else
      some
        { user :=
            some
              { id := t.id
                username := t.username
                email := t.email
                name := t.name
                firstName := t.firstName
                lastName := t.lastName
                role := t.role
                permissions := t.permissions }
          accessToken := t.accessToken
          refreshToken := t.refreshToken }

/-- `ROUTES.HOME`. -/
def ROUTES_HOME : String := "/"

/-- `ROUTES.LOGIN`. -/
def ROUTES_LOGIN : String := "/login"

/-- `ROUTES.FORGOT_PASSWORD`. -/
def ROUTES_FORGOT_PASSWORD : String := "/forgot-password"

/-- `ROUTES.DASHBOARD.ROOT` from the route-constants table
(`ROUTES = { ..., DASHBOARD: { ROOT: '/dashboard' } }`): the
home/dashboard path the middleware redirects an authenticated visitor of
the login page to. -/
def DASHBOARD_ROOT : String := "/dashboard"

/-- `PUBLIC_ROUTES`: the externally supplied route classification
table. -/
def PUBLIC_ROUTES : List String := [ROUTES_HOME, ROUTES_LOGIN, ROUTES_FORGOT_PASSWORD]

/-- `isPublicRoute`: a path is public when it equals a public route or
lives under it. -/
def isPublicRoute (pathname : String) : Bool :=
  PUBLIC_ROUTES.any (fun route => pathname == route || pathname.startsWith (route ++ "/"))

/-- The middleware's decision: pass the request through, or redirect.  A
redirect carries the target path and, when the code attaches one, the
`returnUrl` query parameter. -/
inductive GuardDecision where
  | next
  | redirect (target : String) (returnUrl : Option String)
deriving Repr, DecidableEq

/-- `!!request.auth?.user`: the middleware's authenticated test on the
session object NextAuth attaches to the request. -/
def requestAuthUser (auth : Option SessionObj) : Bool :=
  match auth with
  | some s => s.user.isSome
  | none => false

/-- The authentication middleware (route guard): public routes pass,
except that an authenticated visit to the login page is redirected to the
`returnUrl` query parameter (or the dashboard); unauthenticated visits to
protected routes are redirected to login with the original path as
`returnUrl`.  `auth` is the session object NextAuth attaches to the
request (`request.auth`) and `returnUrlParam` the request's `returnUrl`
query parameter. -/
def authMiddleware (pathname : String) (auth : Option SessionObj)
    (returnUrlParam : Option String) : GuardDecision :=
  let isAuthenticated : Bool := requestAuthUser auth
  if isPublicRoute pathname then
    if pathname == ROUTES_LOGIN && isAuthenticated then
      .redirect (jsOrStr returnUrlParam DASHBOARD_ROOT) none
    else .next
  else if !isAuthenticated then .redirect ROUTES_LOGIN (some pathname)
  else .next

/-- The spec's ordered route-guard rules, written from the spec's words:
1. login-type public path and `Authenticated` session: redirect to the
caller-specified return URL, else home/dashboard; 2. else public path:
allow; 3. else session not `Authenticated`: redirect to login carrying
the original path as return URL; 4. else allow. -/
def authorizeSpec (pathname : String) (isAuthenticatedSession : Bool)
    (returnUrlParam : Option String) : GuardDecision :=
  if pathname == ROUTES_LOGIN && isAuthenticatedSession then
    .redirect (jsOrStr returnUrlParam DASHBOARD_ROOT) none
  else if isPublicRoute pathname then .next
  else if !isAuthenticatedSession then .redirect ROUTES_LOGIN (some pathname)
  else .next

/-- The authentication data the login API returns on success (only the
fields `loginAction` forwards to `signIn` are modelled). -/
structure AuthData where
  access_token : String
  refresh_token : String
  username : String
  email : String
  first_name : String
  last_name : String
deriving Repr, DecidableEq

/-- An error escaping the body of `loginAction`: an `APIResponseError`
(string `statusCode`, message, numeric HTTP `status`), a NextAuth
`AuthError` (with its `type`), or any other error. -/
inductive LoginError where
  | apiResponseError (statusCode : String) (message : String) (status : Nat)
  | authError (errType : String)
  | genericError (message : String)
deriving Repr, DecidableEq

/-- The value `signIn` resolves to: `result?.error` is the only field
`loginAction` inspects. -/
structure SignInResult where
  error : Option String := none
deriving Repr, DecidableEq

/-- The machine-readable code of a failed `ActionResponse`: the
TypeScript field holds either a string constant or, in the
`APIResponseError` branch, the numeric HTTP status. -/
inductive ErrCode where
  | str (s : String)
  | num (n : Nat)
deriving Repr, DecidableEq

/-- `ActionResponse` as `loginAction` builds it: success with a redirect
URL, or failure with a machine-readable code and a user-facing
message. -/
inductive ActionResponse where
  | success (redirectUrl : String)
  | failure (code : ErrCode) (message : String)
deriving Repr, DecidableEq

/-- The catch-block of `loginAction`. -/
def loginCatch : LoginError → ActionResponse
  | .apiResponseError _ message status =>
    .failure (.num status) (jsOrStr (some message) "ชื่อผู้ใช้หรือรหัสผ่านไม่ถูกต้อง")
  | .authError errType =>
    if errType == "CredentialsSignin" then
      .failure (.str "INVALID_CREDENTIALS") "ชื่อผู้ใช้หรือรหัสผ่านไม่ถูกต้อง"
    else .failure (.str "AUTH_ERROR") "เกิดข้อผิดพลาดในการเข้าสู่ระบบ"
  | .genericError message =>
    .failure (.str "UNKNOWN_ERROR") (jsOrStr (some message) "เกิดข้อผิดพลาดที่ไม่คาดคิด")

/-- `loginAction`: call the login API, then `signIn`; map failures
through the catch-block.  The two awaited effects are parameters: the
API call's outcome and `signIn`'s outcome on the returned auth data.
The second component reports whether a session was created (i.e.
`signIn` completed without error). -/
def loginAction (postResult : Except LoginError AuthData)
    (signInFn : AuthData → Except LoginError SignInResult) :
    ActionResponse × Bool :=
  match postResult with
  | .error e => (loginCatch e, false)
  | .ok authData =>
    match signInFn authData with
    | .error e => (loginCatch e, false)
    | .ok result =>
      if jsTruthyStr result.error then
        (.failure (.str "AUTH_FAILED") "ชื่อผู้ใช้หรือรหัสผ่านไม่ถูกต้อง", false)
      else (.success ROUTES_HOME, true)

/-- A payload parser that fails on every segment. -/
def pNone : PayloadParser := fun _ => none

/-- A payload parser mapping the segment `"payload"` to a claims record
whose `exp` is 1000 seconds. -/
def pExpOne : PayloadParser := fun seg =>
  if seg = "payload" then some { exp := some 1000 } else none

/-- C10: the three-way expiry classification of `getTokenInfo` is
exclusive — `isExpired` and `willExpireSoon` are never both true, so
every token at every time is exactly one of expired, expiring-soon, or
valid. -/
theorem getTokenInfo_classification_exclusive (p : PayloadParser) (now : Nat) (token : String) :
    ((getTokenInfo p now token).isExpired = true ∧
      (getTokenInfo p now token).willExpireSoon = false) ∨
    ((getTokenInfo p now token).isExpired = false ∧
      (getTokenInfo p now token).willExpireSoon = true) ∨
    ((getTokenInfo p now token).isExpired = false ∧
      (getTokenInfo p now token).willExpireSoon = false) := by
  have h : (getTokenInfo p now token).willExpireSoon =
      (!(getTokenInfo p now token).isExpired &&
        decide ((getTokenInfo p now token).timeUntilExpiry ≤ REFRESH_BUFFER_MS)) := rfl
  cases hie : (getTokenInfo p now token).isExpired <;>
    cases hws : (getTokenInfo p now token).willExpireSoon <;> simp_all

/-- C1: for a token whose payload decodes with expiry claim `e` seconds
(so `e * 1000` milliseconds), `shouldRefreshToken` is true exactly when
`now ≥ e * 1000 − REFRESH_BUFFER_MS`; it equals the expired-or-
expiring-soon disjunction of the classification, and it is true when the
token argument is absent. -/
theorem shouldRefreshToken_iff_buffer (p : PayloadParser) (tok : String) (now : Nat)
    (payload : EnhancedJwtPayload) (e : Nat)
    (hdec : decodeToken p tok = some payload) (hexp : payload.exp = some e) :
    (shouldRefreshToken p now (some tok) = true ↔
      (e * 1000 : Int) - (REFRESH_BUFFER_MS : Int) ≤ (now : Int)) ∧
    shouldRefreshToken p now (some tok) =
      ((getTokenInfo p now tok).isExpired || (getTokenInfo p now tok).willExpireSoon) ∧
    shouldRefreshToken p now none = true := by
  have htok : tok ≠ "" := by
    intro h
    rw [h] at hdec
    simp [decodeToken, jwtDecode] at hdec
  refine ⟨?_, ?_, rfl⟩
  · simp only [shouldRefreshToken, if_neg htok]
    simp only [getTokenInfo, hdec, Option.getD_some, hexp]
    by_cases he : e = 0
    · subst he
      simp [REFRESH_BUFFER_MS]
      omega
    · simp only [he, if_false, REFRESH_BUFFER_MS]
      simp only [Bool.or_eq_true, Bool.and_eq_true, Bool.not_eq_true', decide_eq_true_eq,
        decide_eq_false_iff_not]
      omega
  · simp only [shouldRefreshToken, if_neg htok]

/-- C4: a malformed token string — empty, wrong dot-separated segment
count, or payload segment that does not deserialize — fails to decode,
and `shouldRefreshToken` treats it as expired (fail-closed). -/
theorem malformed_token_fail_closed (p : PayloadParser) (tok : String) (now : Nat)
    (hmal : tok = "" ∨ (splitDots tok).length ≠ 3 ∨
      ∀ seg, (splitDots tok)[1]? = some seg → p seg = none) :
    decodeToken p tok = none ∧ shouldRefreshToken p now (some tok) = true := by
  have hdec : decodeToken p tok = none := by
    by_cases h0 : tok = ""
    · simp [decodeToken, jwtDecode, h0]
    · by_cases h3 : (splitDots tok).length = 3
      · rcases hmal with h | h | h
        · exact absurd h h0
        · exact absurd h3 h
        · have h1 : (splitDots tok)[1]? = some ((splitDots tok).get ⟨1, by omega⟩) :=
            List.getElem?_eq_getElem (by omega)
          simp [decodeToken, jwtDecode, h0, h3, h1]
          exact h _ h1
      · simp [decodeToken, jwtDecode, h0, h3]
  refine ⟨hdec, ?_⟩
  by_cases h0 : tok = ""
  · simp [shouldRefreshToken, h0]
  · simp [shouldRefreshToken, h0, getTokenInfo, hdec, emptyPayload]

/-- Witness for C1 at a concrete parser, token and time. -/
theorem shouldRefreshToken_iff_buffer_witness :
    (shouldRefreshToken pExpOne 700000 (some "header.payload.sig") = true ↔
      (1000 * 1000 : Int) - (REFRESH_BUFFER_MS : Int) ≤ (700000 : Int)) ∧
    shouldRefreshToken pExpOne 700000 (some "header.payload.sig") =
      ((getTokenInfo pExpOne 700000 "header.payload.sig").isExpired ||
        (getTokenInfo pExpOne 700000 "header.payload.sig").willExpireSoon) ∧
    shouldRefreshToken pExpOne 700000 none = true :=
  shouldRefreshToken_iff_buffer pExpOne "header.payload.sig" 700000
    { exp := some 1000 } 1000 (by decide) rfl

/-- Witness for C4 at the concrete dotless string `"ab"`. -/
theorem malformed_token_fail_closed_witness :
    decodeToken pNone "ab" = none ∧ shouldRefreshToken pNone 0 (some "ab") = true :=
  malformed_token_fail_closed pNone "ab" 0 (Or.inr (Or.inl (by decide)))

/-- C2: a refresh function failing with a transient (non-`TokenError`)
error on every attempt is called exactly 3 times under the default
budget (`maxRetries = 2`), with backoff waits of 1000 ms then 2000 ms
between attempts, and the terminal error is a `REFRESH_FAILED`
`TokenError` carrying the last attempt's error as its cause. -/
theorem safeTokenRefresh_transient_three_calls (p : PayloadParser) (msg : Nat → String) :
    safeTokenRefresh p (fun attempt => .error (.genericError (msg attempt))) 2 =
      { result := .error (.tokenError "Token refresh failed after retries" "REFRESH_FAILED"
          (some (.genericError (msg 2)))),
        calls := 3,
        waits := [1000, 2000] } := by
  simp [safeTokenRefresh, refreshGo, runAttempt, noRetryError, finalError]

/-- C3: a credential-class failure is not retried: a `TokenError` with
code `INVALID_CREDENTIALS` or `INVALID_REFRESH_RESULT` on the first
attempt yields exactly 1 call, no backoff wait, and immediate terminal
failure with that error; and a nominally successful result whose access
token fails `validateTokenFormat` is converted to the credential-class
`INVALID_REFRESH_RESULT` `TokenError` and equally not retried. -/
theorem safeTokenRefresh_credential_no_retry (p : PayloadParser)
    (fn fn2 : Nat → Except JsError RefreshValue) (m c : String) (orig : Option JsError)
    (a : String)
    (hfn : fn 0 = .error (.tokenError m c orig))
    (hc : c = "INVALID_CREDENTIALS" ∨ c = "INVALID_REFRESH_RESULT")
    (hfn2 : fn2 0 = .ok (.withAccess a))
    (ha : a ≠ "")
    (hval : (validateTokenFormat p a).isValid = false) :
    safeTokenRefresh p fn 2 =
      { result := .error (.tokenError m c orig), calls := 1, waits := [] } ∧
    safeTokenRefresh p fn2 2 =
      { result := .error (.tokenError "Invalid access token from refresh"
          "INVALID_REFRESH_RESULT" none),
        calls := 1, waits := [] } := by
  constructor
  · have hnr : noRetryError (.tokenError m c orig) = true := by
      rcases hc with h | h <;> simp [noRetryError, h]
    simp [safeTokenRefresh, refreshGo, runAttempt, hfn, hnr, finalError]
  · simp [safeTokenRefresh, refreshGo, runAttempt, hfn2, ha, hval, noRetryError, finalError]

/-- A refresh function that always fails with a credential-class
`TokenError`. -/
def fnCredFail : Nat → Except JsError RefreshValue :=
  fun _ => .error (.tokenError "Invalid refresh token" "INVALID_CREDENTIALS" none)

/-- A refresh function that always nominally succeeds but returns an
access token that fails structural validation. -/
def fnBadAccess : Nat → Except JsError RefreshValue :=
  fun _ => .ok (.withAccess "not-a-jwt")

/-- Witness for C3 at concrete refresh functions and parser. -/
theorem safeTokenRefresh_credential_no_retry_witness :
    safeTokenRefresh pNone fnCredFail 2 =
      { result := .error (.tokenError "Invalid refresh token" "INVALID_CREDENTIALS" none),
        calls := 1, waits := [] } ∧
    safeTokenRefresh pNone fnBadAccess 2 =
      { result := .error (.tokenError "Invalid access token from refresh"
          "INVALID_REFRESH_RESULT" none),
        calls := 1, waits := [] } :=
  safeTokenRefresh_credential_no_retry pNone fnCredFail fnBadAccess
    "Invalid refresh token" "INVALID_CREDENTIALS" none "not-a-jwt"
    rfl (Or.inl rfl) rfl (by decide) (by decide)

/-- C5: when refresh is warranted and the Refresh Executor fails (null
result or truthy error flag), the `jwt` callback returns the old record
with only the error flag set: the stale token pair, its expiry and all
identity fields are retained unchanged. -/
theorem jwtCallback_refresh_failure_frame (p : PayloadParser) (now : Nat)
    (refreshFn : JWTToken → Option JWTToken) (token : JWTToken)
    (hshould : shouldRefreshJwt p now token.accessToken = true)
    (hfail : refreshFn token = none ∨
      ∃ r, refreshFn token = some r ∧ jsTruthyStr r.error = true) :
    jwtCallback p now refreshFn token none false none =
      { token with error := some "RefreshAccessTokenError" } := by
  simp only [jwtCallback, Bool.false_eq_true, if_false, hshould, Bool.not_true]
  rcases hfail with h | ⟨r, hr, he⟩
  · simp [h]
  · simp [hr, he]

/-- A JWT record carrying an undecodable (hence expired-classified)
access token and a stale pair plus identity fields. -/
def staleToken : JWTToken :=
  { id := some "u1"
    username := some "admin"
    email := some "admin@example.com"
    name := some "Admin User"
    firstName := some "Admin"
    lastName := some "User"
    role := some "admin"
    permissions := some ["read"]
    accessToken := some "h.old.s"
    refreshToken := some "r.old.s"
    accessTokenExpires := some 500 }

/-- A Refresh Executor that fails by returning a null result. -/
def failingRefreshFn : JWTToken → Option JWTToken := fun _ => none

/-- Witness for C5 at a concrete stale session record and failing
executor. -/
theorem jwtCallback_refresh_failure_frame_witness :
    jwtCallback pNone 1000 failingRefreshFn staleToken none false none =
      { staleToken with error := some "RefreshAccessTokenError" } :=
  jwtCallback_refresh_failure_frame pNone 1000 failingRefreshFn staleToken
    (by decide) (Or.inl rfl)

/-- The spec's session-state classification of a JWT record: a session
is `Authenticated` exactly when a record exists and its error flag is
not (truthily) set; a missing record is `Unauthenticated` and a set flag
is `Authenticated-Error`. -/
def isAuthenticatedState : Option JWTToken → Bool
  | none => false
  | some t => !(jsTruthyStr t.error)

/-- The middleware's `!!request.auth?.user` agrees with the spec's
session-state classification once the `session` callback has run. -/
theorem requestAuthUser_sessionCallback (tok : Option JWTToken) :
    requestAuthUser (sessionCallback tok) = isAuthenticatedState tok := by
  cases tok with
  | none => rfl
  | some t =>
    cases htok : jsTruthyStr t.error <;>
      simp [sessionCallback, requestAuthUser, isAuthenticatedState, htok]

/-- C6: for every path, session record and caller-specified return URL,
the middleware's decision equals the spec's ordered rules (login-type
public path with authenticated session redirects to the return URL or
dashboard; other public paths pass; unauthenticated or error sessions
are redirected to login with the original path as return URL; otherwise
pass). -/
theorem authMiddleware_matches_spec_rules (pathname : String) (tok : Option JWTToken)
    (q : Option String) :
    authMiddleware pathname (sessionCallback tok) q =
      authorizeSpec pathname (isAuthenticatedState tok) q := by
  have hauth := requestAuthUser_sessionCallback tok
  simp only [authMiddleware, authorizeSpec, hauth]
  by_cases hlogin : (pathname == ROUTES_LOGIN) = true
  · have hpath : pathname = ROUTES_LOGIN := by simpa using hlogin
    have hpub : isPublicRoute pathname = true := by
      simp [isPublicRoute, PUBLIC_ROUTES, hpath, ROUTES_LOGIN]
    cases ha : isAuthenticatedState tok <;> simp [hpub, hlogin]
  · have hlogin' : (pathname == ROUTES_LOGIN) = false := by
      simpa using hlogin
    cases hpub : isPublicRoute pathname <;> cases ha : isAuthenticatedState tok <;>
      simp [hpub, hlogin']

/-- A payload parser mapping the segment `"zero"` to a claims record
whose expiry claim is present and equal to 0 seconds. -/
def pExpZero : PayloadParser := fun seg =>
  if seg = "zero" then some { exp := some 0 } else none

/-- The claims record with a zero expiry claim. -/
def zeroExpPayload : EnhancedJwtPayload := { exp := some 0 }

/-- The empty JWT record the `jwt` callback starts from on first sign
in. -/
def emptyJWT : JWTToken := {}

/-- A signed-in user whose access token decodes to a zero expiry
claim. -/
def uZeroExp : AuthUser :=
  { id := "u1"
    username := "admin"
    email := "admin@example.com"
    name := "Admin User"
    firstName := "Admin"
    lastName := "User"
    role := "admin"
    permissions := []
    accessToken := some "h.zero.s"
    refreshToken := some "r" }

/-- C7 as stated is false: an access token whose expiry claim decodes to
0 is decodable, yet the initial sign-in stores the 1-hour default
(issuance 1000 ms + 3600000 ms) rather than the decoded instant
`0 * 1000`, because a zero claim is falsy in JavaScript. -/
theorem installUser_zero_exp_counterexample :
    decodeToken pExpZero "h.zero.s" = some zeroExpPayload ∧
    zeroExpPayload.exp = some 0 ∧
    uZeroExp.accessToken = some "h.zero.s" ∧
    (installUser pExpZero 1000 emptyJWT uZeroExp).accessTokenExpires = some 3601000 ∧
    some (3601000 : Nat) ≠ some (0 * 1000 : Nat) :=
  ⟨by decide, rfl, rfl, by decide, by decide⟩

/-- C7 amended: at initial sign-in the stored `accessTokenExpires` is
the decoded expiry claim `e * 1000` whenever the access token is present
and decodes to a nonzero expiry claim, and the issuance time plus the
1-hour default horizon otherwise (absent or empty token, undecodable
payload, absent or zero expiry claim). -/
theorem installUser_expiry_amended (p : PayloadParser) (now : Nat) (token : JWTToken)
    (u : AuthUser) :
    (∀ s payload e, u.accessToken = some s → s ≠ "" → decodeToken p s = some payload →
      payload.exp = some e → 0 < e →
      (installUser p now token u).accessTokenExpires = some (e * 1000)) ∧
    ((¬ ∃ s payload e, u.accessToken = some s ∧ s ≠ "" ∧ decodeToken p s = some payload ∧
      payload.exp = some e ∧ 0 < e) →
      (installUser p now token u).accessTokenExpires = some (now + 60 * 60 * 1000)) := by
  constructor
  · intro s payload e hs hne hdec hexp he
    have h1 : e ≠ 0 := Nat.pos_iff_ne_zero.mp he
    have h2 : e * 1000 ≠ 0 := Nat.mul_ne_zero h1 (by norm_num)
    simp [installUser, hs, hne, getTokenExpiry, hdec, hexp, h1, jsOrNat, h2]
  · intro hne
    cases hacc : u.accessToken with
    | none => simp [installUser, hacc, jsOrNat]
    | some s =>
      by_cases hs : s = ""
      · simp [installUser, hacc, hs, jsOrNat]
      · cases hdec : decodeToken p s with
        | none => simp [installUser, hacc, hs, getTokenExpiry, hdec, jsOrNat]
        | some payload =>
          cases hexp : payload.exp with
          | none => simp [installUser, hacc, hs, getTokenExpiry, hdec, hexp, jsOrNat]
          | some e =>
            by_cases he : e = 0
            · subst he
              simp [installUser, hacc, hs, getTokenExpiry, hdec, hexp, jsOrNat]
            · exact absurd
                ⟨s, payload, e, hacc, hs, hdec, hexp, Nat.pos_of_ne_zero he⟩ hne

/-- The login API failing a wrong-password attempt: an
`APIResponseError` with HTTP status 401 (its string `statusCode` comes
from the response body, its `status` is the numeric HTTP status). -/
def wrongPasswordApiError : LoginError :=
  .apiResponseError "UNAUTHORIZED" "Invalid username or password" 401

/-- A `signIn` effect that resolves without error. -/
def signInOk : AuthData → Except LoginError SignInResult := fun _ => .ok {}

/-- C9 as stated is false: a wrong-password attempt surfaces as the
`APIResponseError` branch, whose machine-readable code is the numeric
HTTP status (401), not one of `INVALID_CREDENTIALS`, `AUTH_ERROR`,
`UNKNOWN_ERROR`; no session is created. -/
theorem loginAction_wrong_password_counterexample :
    loginAction (.error wrongPasswordApiError) signInOk =
      (.failure (.num 401) "Invalid username or password", false) ∧
    ErrCode.num 401 ≠ .str "INVALID_CREDENTIALS" ∧
    ErrCode.num 401 ≠ .str "AUTH_ERROR" ∧
    ErrCode.num 401 ≠ .str "UNKNOWN_ERROR" :=
  ⟨by decide, by decide, by decide, by decide⟩

/-- C9 amended: `loginAction` either succeeds (and a session is created)
or fails with no session created and a machine-readable code that is one
of `AUTH_FAILED`, `INVALID_CREDENTIALS`, `AUTH_ERROR`, `UNKNOWN_ERROR`,
or the numeric HTTP status of an `APIResponseError`; a wrong-password
attempt takes the latter branch. -/
theorem loginAction_error_codes_amended (postResult : Except LoginError AuthData)
    (signInFn : AuthData → Except LoginError SignInResult) :
    loginAction postResult signInFn = (.success ROUTES_HOME, true) ∨
    (∃ code message, loginAction postResult signInFn = (.failure code message, false) ∧
      (code = .str "AUTH_FAILED" ∨ code = .str "INVALID_CREDENTIALS" ∨
        code = .str "AUTH_ERROR" ∨ code = .str "UNKNOWN_ERROR" ∨ ∃ n, code = .num n)) := by
  have hcatch : ∀ e : LoginError, ∃ code message, loginCatch e = .failure code message ∧
      (code = ErrCode.str "AUTH_FAILED" ∨ code = .str "INVALID_CREDENTIALS" ∨
        code = .str "AUTH_ERROR" ∨ code = .str "UNKNOWN_ERROR" ∨ ∃ n, code = .num n) := by
    intro e
    cases e with
    | apiResponseError sc m st =>
      exact ⟨.num st, _, rfl, Or.inr (Or.inr (Or.inr (Or.inr ⟨st, rfl⟩)))⟩
    | authError t =>
      cases ht : (t == "CredentialsSignin") with
      | true =>
        refine ⟨.str "INVALID_CREDENTIALS", "ชื่อผู้ใช้หรือรหัสผ่านไม่ถูกต้อง", ?_,
          Or.inr (Or.inl rfl)⟩
        simp [loginCatch, ht]
      | false =>
        refine ⟨.str "AUTH_ERROR", "เกิดข้อผิดพลาดในการเข้าสู่ระบบ", ?_,
          Or.inr (Or.inr (Or.inl rfl))⟩
        simp [loginCatch, ht]
    | genericError m =>
      exact ⟨.str "UNKNOWN_ERROR", _, rfl, Or.inr (Or.inr (Or.inr (Or.inl rfl)))⟩
  cases postResult with
  | error e =>
    obtain ⟨c, m, hc, hcs⟩ := hcatch e
    exact Or.inr ⟨c, m, by simp [loginAction, hc], hcs⟩
  | ok authData =>
    cases hs : signInFn authData with
    | error e =>
      obtain ⟨c, m, hc, hcs⟩ := hcatch e
      exact Or.inr ⟨c, m, by simp [loginAction, hs, hc], hcs⟩
    | ok result =>
      cases her : jsTruthyStr result.error with
      | true =>
        exact Or.inr ⟨.str "AUTH_FAILED", "ชื่อผู้ใช้หรือรหัสผ่านไม่ถูกต้อง",
          by simp [loginAction, hs, her], Or.inl rfl⟩
      | false =>
        exact Or.inl (by simp [loginAction, hs, her])
